import Mathlib

/-!
Verification development for SPConverter, a small audio normalisation tool.

The tool converts audio files into 16-bit PCM WAV at 48 kHz / 2 channels.
It consists of a conversion engine (`Converter::convert` in converter.cpp),
which calls libsndfile and the r8brain resampler, and a driver (main.cpp)
with path planning (`getOutPath`), extension filtering
(`hasAllowedExtension`), directory enumeration (`getFilePaths`) and a batch
loop (`processDirectory`).

The embedding below translates those functions into Lean.  The external
collaborators (libsndfile `sf_open` / `sf_readf_double` / `sf_write_double`,
`std::ifstream` / `std::ofstream`, the r8brain resampler) are modelled by an
environment record `ConvertInput` that records, for one (inPath, outPath)
pair, the observable results of those calls; `convert` then computes the
messages printed, the bytes or audio data written to the destination, and
the arguments handed to the resampler, exactly following the control flow of
`Converter::convert`.
-/

/-! ## libsndfile constants (from sndfile.h) -/

def SF_FORMAT_PCM_16 : Nat := 0x0002
def SF_FORMAT_PCM_24 : Nat := 0x0003
def SF_FORMAT_WAV : Nat := 0x010000
def SF_FORMAT_FLAC : Nat := 0x170000

/-- `SF_FORMAT_SUBMASK` is `0x0000FFFF`; on a nonnegative format code,
`format & SF_FORMAT_SUBMASK` equals `format % 2^16`. -/
def subformatOf (format : Nat) : Nat := format % 65536

/-- The `SF_INFO` struct of libsndfile, as used by `Converter::convert`
(fields the code never touches are omitted). -/
structure SFInfo where
  frames : Nat
  samplerate : Nat
  channels : Nat
  format : Nat
deriving DecidableEq, Repr

/-- Diagnostic messages `Converter::convert` and `copyFile` can print. -/
inductive CMsg where
  /-- "Error opening the input file." (printed to cerr by `convert`). -/
  | errOpenInput
  /-- "[!] File is already 16 bit. Copying instead.." (printed by `convert`). -/
  | alreadyPCM16
  /-- "Error copying file: ..." (printed by `copyFile` on any failure). -/
  | errCopy
deriving DecidableEq, Repr

/-- The audio payload `sf_write_double` serialises to the destination:
the `SF_INFO` descriptor passed to `sf_open(outPath, SFM_WRITE, ...)` and
the number of double samples written. -/
structure OutWrite where
  info : SFInfo
  samples : Nat
deriving DecidableEq, Repr

/-- Environment for one call `Converter::convert(inPath, outPath)`:
the observable results of the external file operations.
* `audio`: result of `sf_open(inPath, SFM_READ, &sfinfo)` — `none` when the
  open fails (`inFile` is NULL), otherwise the `SF_INFO` filled in.
* `rawBytes`: result of `std::ifstream(inPath)` in `copyFile` — `none` when
  the stream fails to open, otherwise the raw bytes of the source file.
* `destStreamOk`: whether `std::ofstream(outPath)` in `copyFile` opens.
* `destSndOk`: whether `sf_open(outPath, SFM_WRITE, &sfinfo)` succeeds. -/
structure ConvertInput where
  audio : Option SFInfo
  rawBytes : Option (List Nat)
  destStreamOk : Bool
  destSndOk : Bool
deriving DecidableEq, Repr

/-- Observable outcome of one `Converter::convert` call:
* `msgs`: diagnostics printed, in order;
* `outBytes`: raw bytes written to `outPath` by `copyFile` (pass-through);
* `outAudio`: descriptor and sample count written via libsndfile;
* `resampleArgs`: the `(fromRate, toRate, maxInLen)` constructor arguments
  of `r8b::CDSPResampler16`, when a resampler was created;
* `readFrames`: the frame count requested from `sf_readf_double`, when the
  decode step ran. -/
structure ConvertResult where
  msgs : List CMsg
  outBytes : Option (List Nat)
  outAudio : Option OutWrite
  resampleArgs : Option (Nat × Nat × Nat)
  readFrames : Option Nat
deriving DecidableEq, Repr

/-- `copyFile` (converter.cpp): opens the source as an `ifstream` and the
destination as an `ofstream`, streams all bytes across, and catches any
failure, printing "Error copying file" and returning normally.
Result: messages printed, and the bytes written to the destination. -/
def copyFile (srcBytes : Option (List Nat)) (destStreamOk : Bool) :
    List CMsg × Option (List Nat) :=
  match srcBytes with
  | none => ([CMsg.errCopy], none)
  | some bs =>
    if destStreamOk then ([], some bs) else ([CMsg.errCopy], none)

/-- `Converter::convert` (converter.cpp), step by step:
1. `sf_open(inPath, SFM_READ, &sfinfo)`; on NULL print the open error and
   return (nothing written).
2. `subformat = sfinfo.format & SF_FORMAT_SUBMASK`; if it equals
   `SF_FORMAT_PCM_16`, print the notice, `copyFile(inPath, outPath)`,
   close and return.
3. Otherwise allocate `fArray` of size `sfinfo.frames * sfinfo.channels`,
   read the frames with `sf_readf_double`, close the input.
4. Mutate `sfinfo`: `samplerate = 48000; channels = 2;
   format = SF_FORMAT_WAV | SF_FORMAT_PCM_16`.
5. `sf_open(outPath, SFM_WRITE, &sfinfo)` — the result is NOT checked.
6. Construct `r8b::CDSPResampler16(sfinfo.samplerate, sfinfo.samplerate,
   fArray.size())` — note both rate arguments read the ALREADY MUTATED
   `sfinfo.samplerate`, i.e. 48000 — and process in place.
7. `sf_write_double(outFile, &fArray[0], fArray.size())`; with a NULL
   `outFile` libsndfile writes nothing and returns 0; the return value is
   stored in `wFrames` but never examined, and no diagnostic is printed.
8. Close the output and return. -/
def convert (inp : ConvertInput) : ConvertResult :=
  match inp.audio with
  | none =>
    { msgs := [CMsg.errOpenInput], outBytes := none, outAudio := none,
      resampleArgs := none, readFrames := none }
  | some sfinfo =>
    let subformat := subformatOf sfinfo.format
    if subformat = SF_FORMAT_PCM_16 then
      let copied := copyFile inp.rawBytes inp.destStreamOk
      { msgs := CMsg.alreadyPCM16 :: copied.1, outBytes := copied.2,
        outAudio := none, resampleArgs := none, readFrames := none }
    else
      let fArraySize := sfinfo.frames * sfinfo.channels
      let sfinfo2 : SFInfo :=
        { sfinfo with
          samplerate := 48000
          channels := 2
          format := SF_FORMAT_WAV + SF_FORMAT_PCM_16 }
      let rArgs := (sfinfo2.samplerate, sfinfo2.samplerate, fArraySize)
      { msgs := []
        outBytes := none
        outAudio :=
          if inp.destSndOk then
            some { info := sfinfo2, samples := fArraySize }
          else none
        resampleArgs := some rArgs
        readFrames := some sfinfo.frames }

/-! ## Path model (main.cpp)

`main.cpp` manipulates paths through `std::filesystem::path`.  A path is
modelled as its character list.  The operations below model the
`std::filesystem` members the driver uses — `parent_path`, `filename`,
`stem`, `extension`, `operator/` and `fs::relative` — for the generic
path format, on paths without duplicate or trailing separators (the only
shapes the driver ever builds). -/

/-- `path.filename()`: the characters after the last separator. -/
def filenameOf (p : List Char) : List Char :=
  (p.reverse.takeWhile (fun c => c != '/')).reverse

/-- `path.parent_path()`: the characters before the last separator
(empty when the path has no separator). -/
def parentOf (p : List Char) : List Char :=
  ((p.reverse.dropWhile (fun c => c != '/')).drop 1).reverse

/-- `path.extension()` of a filename: the suffix starting at the last dot,
except that `.`, `..` and a filename whose only dot is its first character
have no extension.  `f.reverse.takeWhile (· != ·)` computes the reversed
run of characters after the last dot. -/
def extOf (f : List Char) : List Char :=
  if f = ['.'] ∨ f = ['.', '.'] then []
  else if (f.reverse.takeWhile (fun c => c != '.')).length = f.length then []
  else if (f.reverse.takeWhile (fun c => c != '.')).length + 1 = f.length ∧
      f.head? = some '.' then []
  else '.' :: (f.reverse.takeWhile (fun c => c != '.')).reverse

/-- `path.stem()` of a filename: the filename with its extension removed. -/
def stemOf (f : List Char) : List Char :=
  f.take (f.length - (extOf f).length)

/-- `dir / fname` (`std::filesystem::path::operator/`) for a relative
`fname`: inserts a separator unless `dir` is empty. -/
def pathJoin (dir fname : List Char) : List Char :=
  if dir = [] then fname else dir ++ '/' :: fname

/-- Helper for [relativeTo]: strips `base ++ ['/']` off the front of a path. -/
def stripBase : List Char → List Char → Option (List Char)
  | [], '/' :: rest => some rest
  | [], _ => none
  | _ :: _, [] => none
  | b :: bs, c :: cs => if b = c then stripBase bs cs else none

/-- `fs::relative(p, base)` for a path `p` lexically under `base` (the only
case the driver produces: every `filePath` comes from iterating `base`). -/
def relativeTo (p base : List Char) : List Char :=
  (stripBase base p).getD p

/-- The characters of the "-SPC" suffix. -/
def sSPC : List Char := ['-', 'S', 'P', 'C']

/-! ## Driver functions (main.cpp) -/

/-- `allowedExtensions` (main.cpp): the global extension allow-list. -/
def allowedExtensions : List (List Char) :=
  [['.', 'w', 'a', 'v'], ['.', 'f', 'l', 'a', 'c'],
   ['.', 'o', 'g', 'g'], ['.', 'm', 'p', '3']]

/-- `getOutPath` (main.cpp): output path for single-file mode,
`parent_path / (stem + "-SPC" + extension)`. -/
def getOutPath (inPath : List Char) : List Char :=
  pathJoin (parentOf inPath)
    (stemOf (filenameOf inPath) ++ sSPC ++ extOf (filenameOf inPath))

/-- `hasAllowedExtension` (main.cpp): the path's extension compared for
string equality against each entry of `allowedExtensions`. -/
def hasAllowedExtension (filePath : List Char) : Bool :=
  allowedExtensions.any (fun allowedExt => extOf (filenameOf filePath) = allowedExt)

/-- A filesystem entry produced by a `std::filesystem` directory iterator:
its path and whether `fs::is_regular_file` holds for it. -/
structure FSEntry where
  path : List Char
  isRegularFile : Bool
deriving DecidableEq, Repr

/-- `getFilePaths` (main.cpp): keeps, in iteration order, the paths of the
entries that are regular files with an allowed extension. -/
def getFilePaths : List FSEntry → List (List Char)
  | [] => []
  | e :: rest =>
    if e.isRegularFile && hasAllowedExtension e.path then
      e.path :: getFilePaths rest
    else getFilePaths rest

/-- The destination directory `processDirectory` creates:
`inPath.parent_path() / (inPath.filename() + "-SPC")`. -/
def convertedDir (inPath : List Char) : List Char :=
  pathJoin (parentOf inPath) (filenameOf inPath ++ sSPC)

/-- The per-file output path `processDirectory` computes:
`convertedDir / fs::relative(filePath, inPath)`. -/
def dirModeOutPath (inPath filePath : List Char) : List Char :=
  pathJoin (convertedDir inPath) (relativeTo filePath inPath)

/-- The body of `processDirectory`s loop (main.cpp): after collecting
`fileList` with `getFilePaths`, it calls `processFile` — that is,
`conv.convert` — once per listed path, in order.  `Converter::convert`
returns `void` and throws nothing (`copyFile` catches internally, the
libsndfile C API reports through return values), so the loop always runs to
completion; `env` gives the external-world state `convert` observes for
each source path. -/
def processDirectory (entries : List FSEntry) (env : List Char → ConvertInput) :
    List ConvertResult :=
  (getFilePaths entries).map (fun filePath => convert (env filePath))

/-! ## Derived predicates and concrete sample values used by the theorems -/

/-- True exactly when a `convert` call printed the input-open error. -/
def reportsOpenError (r : ConvertResult) : Bool :=
  decide (CMsg.errOpenInput ∈ r.msgs)

/-- Sample source descriptor: 44100 Hz stereo FLAC, 24-bit PCM, 100 frames. -/
def flacStereoSrc : SFInfo :=
  { frames := 100, samplerate := 44100, channels := 2,
    format := SF_FORMAT_FLAC + SF_FORMAT_PCM_24 }

/-- Sample source descriptor: 22050 Hz mono FLAC, 24-bit PCM, 10 frames. -/
def flacMonoSrc : SFInfo :=
  { frames := 10, samplerate := 22050, channels := 1,
    format := SF_FORMAT_FLAC + SF_FORMAT_PCM_24 }

/-- Sample source descriptor: 96 kHz mono WAV, 16-bit PCM, 50 frames. -/
def wavPcm16Src : SFInfo :=
  { frames := 50, samplerate := 96000, channels := 1,
    format := SF_FORMAT_WAV + SF_FORMAT_PCM_16 }

/-- A small directory listing exercising the batch walker: three eligible
audio files (one of which, `root/bad.flac`, fails to open), one text file
and one subdirectory. -/
def sampleEntries : List FSEntry :=
  [{ path := "root/a.wav".data, isRegularFile := true },
   { path := "root/bad.flac".data, isRegularFile := true },
   { path := "root/notes.txt".data, isRegularFile := true },
   { path := "root/sub".data, isRegularFile := false },
   { path := "root/c.ogg".data, isRegularFile := true }]

/-- External-world model for [sampleEntries]: `root/bad.flac` fails to
open, every other source is a readable 44100 Hz stereo FLAC. -/
def sampleEnv : List Char → ConvertInput := fun fp =>
  if fp = "root/bad.flac".data then
    { audio := none, rawBytes := none, destStreamOk := true,
      destSndOk := true }
  else
    { audio := some flacStereoSrc, rawBytes := some [1],
      destStreamOk := true, destSndOk := true }

/-! ## Sanity examples -/

example :
    convert { audio := none, rawBytes := none,
              destStreamOk := true, destSndOk := true } =
      { msgs := [CMsg.errOpenInput], outBytes := none, outAudio := none,
        resampleArgs := none, readFrames := none } := by decide

example :
    (convert { audio := some { frames := 100, samplerate := 44100,
                               channels := 1,
                               format := SF_FORMAT_FLAC + SF_FORMAT_PCM_24 },
               rawBytes := some [1, 2, 3],
               destStreamOk := true, destSndOk := true }).resampleArgs =
      some (48000, 48000, 100) := by decide

example : getOutPath ("track.flac".data) = "track-SPC.flac".data := by decide
example : getOutPath ("a/b/track.flac".data) = "a/b/track-SPC.flac".data := by
  decide
example : hasAllowedExtension ("notes.txt".data) = false := by decide
example : hasAllowedExtension ("song.MP3".data) = false := by decide
example : hasAllowedExtension ("dir/song.mp3".data) = true := by decide
example :
    dirModeOutPath ("home/root".data) ("home/root/a/b/c.wav".data) =
      "home/root-SPC/a/b/c.wav".data := by decide
example : getFilePaths sampleEntries =
    ["root/a.wav".data, "root/bad.flac".data, "root/c.ogg".data] := by decide

/-! ## Path lemmas -/

lemma reverse_append_sep (d f : List Char) (c : Char) :
    (d ++ c :: f).reverse = f.reverse ++ c :: d.reverse := by
  simp

lemma all_bne_of_not_mem {c : Char} {f : List Char} (hf : c ∉ f) :
    ∀ a ∈ f.reverse, (a != c) = true := by
  intro a ha
  simp only [List.mem_reverse] at ha
  simp only [bne_iff_ne, ne_eq]
  intro h
  exact hf (h ▸ ha)

lemma filenameOf_concat (d f : List Char) (hf : '/' ∉ f) :
    filenameOf (d ++ '/' :: f) = f := by
  unfold filenameOf
  rw [reverse_append_sep, List.takeWhile_append_of_pos (all_bne_of_not_mem hf)]
  simp [List.takeWhile_cons]

lemma parentOf_concat (d f : List Char) (hf : '/' ∉ f) :
    parentOf (d ++ '/' :: f) = d := by
  unfold parentOf
  rw [reverse_append_sep, List.dropWhile_append_of_pos (all_bne_of_not_mem hf)]
  simp [List.dropWhile_cons]

lemma filenameOf_no_sep (f : List Char) (hf : '/' ∉ f) :
    filenameOf f = f := by
  unfold filenameOf
  rw [List.takeWhile_eq_self_iff.mpr (all_bne_of_not_mem hf), List.reverse_reverse]

lemma parentOf_no_sep (f : List Char) (hf : '/' ∉ f) :
    parentOf f = [] := by
  unfold parentOf
  have h : f.reverse.dropWhile (fun c => c != '/') = [] := by
    rw [List.dropWhile_eq_nil_iff]
    exact all_bne_of_not_mem hf
  rw [h]
  rfl

lemma extOf_concat (base e : List Char) (hb : base ≠ [])
    (hbd : '.' ∉ base) (hed : '.' ∉ e) :
    extOf (base ++ '.' :: e) = '.' :: e := by
  obtain ⟨b, bs, rfl⟩ : ∃ b bs, base = b :: bs := by
    cases base with
    | nil => exact absurd rfl hb
    | cons b bs => exact ⟨b, bs, rfl⟩
  have hb0 : b ≠ '.' := fun h => hbd (h ▸ List.mem_cons_self b bs)
  have htake : ((b :: bs) ++ '.' :: e).reverse.takeWhile (fun c => c != '.') =
      e.reverse := by
    rw [reverse_append_sep, List.takeWhile_append_of_pos (all_bne_of_not_mem hed)]
    simp [List.takeWhile_cons]
  have c1 : ¬((b :: bs) ++ '.' :: e = ['.'] ∨ (b :: bs) ++ '.' :: e = ['.', '.']) := by
    rintro (h | h) <;> simp only [List.cons_append, List.cons.injEq] at h <;>
      exact hb0 h.1
  have hlen : ((b :: bs) ++ '.' :: e).length = bs.length + e.length + 2 := by
    simp only [List.length_append, List.length_cons]
    omega
  have c2 : ¬(((b :: bs) ++ '.' :: e).reverse.takeWhile
      (fun c => c != '.')).length = ((b :: bs) ++ '.' :: e).length := by
    rw [htake, hlen, List.length_reverse]
    omega
  have c3 : ¬((((b :: bs) ++ '.' :: e).reverse.takeWhile
        (fun c => c != '.')).length + 1 = ((b :: bs) ++ '.' :: e).length ∧
      ((b :: bs) ++ '.' :: e).head? = some '.') := by
    rintro ⟨h, -⟩
    rw [htake, hlen, List.length_reverse] at h
    omega
  unfold extOf
  rw [if_neg c1, if_neg c2, if_neg c3, htake, List.reverse_reverse]

lemma stemOf_concat (base e : List Char) (hb : base ≠ [])
    (hbd : '.' ∉ base) (hed : '.' ∉ e) :
    stemOf (base ++ '.' :: e) = base := by
  unfold stemOf
  rw [extOf_concat base e hb hbd hed]
  have h : (base ++ '.' :: e).length - ('.' :: e).length = base.length := by
    simp only [List.length_append, List.length_cons]
    omega
  rw [h, List.take_left]

lemma stripBase_self (b r : List Char) : stripBase b (b ++ '/' :: r) = some r := by
  induction b with
  | nil => rfl
  | cons x xs ih => simpa [stripBase] using ih

lemma relativeTo_under (b r : List Char) : relativeTo (b ++ '/' :: r) b = r := by
  unfold relativeTo
  rw [stripBase_self]
  rfl

/-! ## Claims about the path planner and batch walker -/

/-- C4.  Single-file mode: for an input `{dir}/{base}.{e}` (and likewise a
bare `{base}.{e}` in the working directory) the planned output is in the
same directory, named `{base}-SPC.{e}`: the "-SPC" suffix is inserted
between the stem and the preserved extension. -/
theorem single_file_outpath_inserts_spc_suffix
    (dir base e : List Char) (hb : base ≠ [])
    (hbs : '/' ∉ base) (hbd : '.' ∉ base)
    (hes : '/' ∉ e) (hed : '.' ∉ e) :
    getOutPath (base ++ '.' :: e) = base ++ sSPC ++ '.' :: e ∧
    (dir ≠ [] →
      getOutPath (dir ++ '/' :: (base ++ '.' :: e)) =
        dir ++ '/' :: (base ++ sSPC ++ '.' :: e)) := by
  have hfs : '/' ∉ base ++ '.' :: e := by
    intro h
    rcases List.mem_append.mp h with h | h
    · exact hbs h
    · rcases List.mem_cons.mp h with h | h
      · exact absurd h (by decide)
      · exact hes h
  constructor
  · unfold getOutPath
    rw [parentOf_no_sep _ hfs, filenameOf_no_sep _ hfs,
      stemOf_concat base e hb hbd hed, extOf_concat base e hb hbd hed]
    rfl
  · intro hdir
    unfold getOutPath
    rw [parentOf_concat dir _ hfs, filenameOf_concat dir _ hfs,
      stemOf_concat base e hb hbd hed, extOf_concat base e hb hbd hed]
    unfold pathJoin
    rw [if_neg hdir]

/-- Witness for C4 at `track.flac` and `a/track.flac`. -/
theorem single_file_outpath_inserts_spc_suffix_witness :
    getOutPath ("track".data ++ '.' :: "flac".data) =
      "track".data ++ sSPC ++ '.' :: "flac".data ∧
    ("a".data ≠ [] →
      getOutPath ("a".data ++ '/' :: ("track".data ++ '.' :: "flac".data)) =
        "a".data ++ '/' :: ("track".data ++ sSPC ++ '.' :: "flac".data)) :=
  single_file_outpath_inserts_spc_suffix ("a".data) ("track".data)
    ("flac".data) (by decide) (by decide) (by decide) (by decide) (by decide)

/-- C5.  Directory mode: for an input directory `{d}/{name}` the destination
root is its sibling `{d}/{name}-SPC`, and a source file at
`{d}/{name}/{rel}` is written to `{d}/{name}-SPC/{rel}` — the relative path
is mirrored and the filename is not suffix-renamed. -/
theorem directory_mode_mirrors_relative_path
    (d name rel : List Char) (hd : d ≠ []) (hn : '/' ∉ name) :
    convertedDir (d ++ '/' :: name) = d ++ '/' :: (name ++ sSPC) ∧
    dirModeOutPath (d ++ '/' :: name) ((d ++ '/' :: name) ++ '/' :: rel) =
      (d ++ '/' :: (name ++ sSPC)) ++ '/' :: rel := by
  have hcd : convertedDir (d ++ '/' :: name) = d ++ '/' :: (name ++ sSPC) := by
    unfold convertedDir
    rw [parentOf_concat d name hn, filenameOf_concat d name hn]
    unfold pathJoin
    rw [if_neg hd]
  refine ⟨hcd, ?_⟩
  unfold dirModeOutPath
  rw [hcd, relativeTo_under]
  unfold pathJoin
  rw [if_neg (by simp)]

/-- Witness for C5 at root `home/root` and source `home/root/a/b/c.wav`. -/
theorem directory_mode_mirrors_relative_path_witness :
    convertedDir ("home".data ++ '/' :: "root".data) =
      "home".data ++ '/' :: ("root".data ++ sSPC) ∧
    dirModeOutPath ("home".data ++ '/' :: "root".data)
        (("home".data ++ '/' :: "root".data) ++ '/' :: "a/b/c.wav".data) =
      ("home".data ++ '/' :: ("root".data ++ sSPC)) ++ '/' :: "a/b/c.wav".data :=
  directory_mode_mirrors_relative_path ("home".data) ("root".data)
    ("a/b/c.wav".data) (by decide) (by decide)

/-! ## Claims about the conversion engine -/

/-- C1.  The spec asks the engine to "invoke the Resample Service with the
decoded buffer, the source rate, ..., requesting the target rate", but the
code assigns `sfinfo.samplerate = 48000` BEFORE constructing
`r8b::CDSPResampler16(sfinfo.samplerate, sfinfo.samplerate, fArray.size())`,
so for a 44100 Hz stereo FLAC source of 100 frames the resampler is
constructed with from-rate 48000 and to-rate 48000 (an identity resample),
not from 44100 to 48000. -/
theorem resampler_invoked_with_overwritten_rate :
    (convert { audio := some { frames := 100, samplerate := 44100,
                               channels := 2,
                               format := SF_FORMAT_FLAC + SF_FORMAT_PCM_24 },
               rawBytes := some [], destStreamOk := true,
               destSndOk := true }).resampleArgs =
      some (48000, 48000, 200) ∧ (44100 : Nat) ≠ 48000 := by decide

/-- C2.  When the inspected subformat is PCM16 and the copy succeeds,
`convert` writes the source bytes verbatim to the destination and performs
no decode, no resample and no libsndfile re-encode, whatever the source
rate and channel count. -/
theorem pcm16_input_copied_verbatim (inp : ConvertInput) (info : SFInfo)
    (bs : List Nat)
    (haudio : inp.audio = some info)
    (hsub : subformatOf info.format = SF_FORMAT_PCM_16)
    (hraw : inp.rawBytes = some bs)
    (hdest : inp.destStreamOk = true) :
    (convert inp).outBytes = some bs ∧ (convert inp).outAudio = none ∧
      (convert inp).resampleArgs = none ∧ (convert inp).readFrames = none := by
  simp [convert, haudio, hsub, copyFile, hraw, hdest]

/-- Witness for C2 at a 96 kHz mono PCM16 WAV source with bytes [7, 8, 9]. -/
theorem pcm16_input_copied_verbatim_witness :
    (convert { audio := some wavPcm16Src, rawBytes := some [7, 8, 9],
               destStreamOk := true,
               destSndOk := true }).outBytes = some [7, 8, 9] ∧
    (convert { audio := some wavPcm16Src, rawBytes := some [7, 8, 9],
               destStreamOk := true, destSndOk := true }).outAudio = none ∧
    (convert { audio := some wavPcm16Src, rawBytes := some [7, 8, 9],
               destStreamOk := true,
               destSndOk := true }).resampleArgs = none ∧
    (convert { audio := some wavPcm16Src, rawBytes := some [7, 8, 9],
               destStreamOk := true, destSndOk := true }).readFrames = none :=
  pcm16_input_copied_verbatim
    { audio := some wavPcm16Src, rawBytes := some [7, 8, 9],
      destStreamOk := true, destSndOk := true }
    wavPcm16Src [7, 8, 9] rfl (by decide) rfl rfl

/-- C3.  For every non-PCM16 source whose destination opens, the `SF_INFO`
descriptor written to the destination is unconditionally the fixed target:
48000 Hz, 2 channels, container WAV with subformat PCM16 — independent of
the source rate and channel count. -/
theorem nonpcm16_output_descriptor_is_target (inp : ConvertInput)
    (info : SFInfo)
    (haudio : inp.audio = some info)
    (hsub : subformatOf info.format ≠ SF_FORMAT_PCM_16)
    (hdest : inp.destSndOk = true) :
    ∃ ow, (convert inp).outAudio = some ow ∧
      ow.info.samplerate = 48000 ∧ ow.info.channels = 2 ∧
      ow.info.format = SF_FORMAT_WAV + SF_FORMAT_PCM_16 ∧
      subformatOf ow.info.format = SF_FORMAT_PCM_16 := by
  refine ⟨{ info := { frames := info.frames, samplerate := 48000,
                      channels := 2,
                      format := SF_FORMAT_WAV + SF_FORMAT_PCM_16 },
            samples := info.frames * info.channels },
          ?_, rfl, rfl, rfl,
          by norm_num [subformatOf, SF_FORMAT_WAV, SF_FORMAT_PCM_16]⟩
  simp [convert, haudio, hsub, hdest]

/-- Witness for C3 at a 22050 Hz mono FLAC PCM24 source. -/
theorem nonpcm16_output_descriptor_is_target_witness :
    ∃ ow,
      (convert { audio := some flacMonoSrc, rawBytes := some [],
                 destStreamOk := true,
                 destSndOk := true }).outAudio = some ow ∧
      ow.info.samplerate = 48000 ∧ ow.info.channels = 2 ∧
      ow.info.format = SF_FORMAT_WAV + SF_FORMAT_PCM_16 ∧
      subformatOf ow.info.format = SF_FORMAT_PCM_16 :=
  nonpcm16_output_descriptor_is_target
    { audio := some flacMonoSrc, rawBytes := some [],
      destStreamOk := true, destSndOk := true }
    flacMonoSrc rfl (by decide) rfl

/-- C8.  When `sf_open` on the source fails, `convert` prints exactly the
open-error diagnostic and returns having written nothing: no raw copy and
no audio output. -/
theorem open_failure_reports_and_writes_nothing (inp : ConvertInput)
    (h : inp.audio = none) :
    (convert inp).msgs = [CMsg.errOpenInput] ∧
      (convert inp).outBytes = none ∧ (convert inp).outAudio = none := by
  simp [convert, h]

/-- Witness for C8 at a source that fails to open. -/
theorem open_failure_reports_and_writes_nothing_witness :
    (convert { audio := none, rawBytes := none, destStreamOk := true,
               destSndOk := true }).msgs = [CMsg.errOpenInput] ∧
    (convert { audio := none, rawBytes := none, destStreamOk := true,
               destSndOk := true }).outBytes = none ∧
    (convert { audio := none, rawBytes := none, destStreamOk := true,
               destSndOk := true }).outAudio = none :=
  open_failure_reports_and_writes_nothing _ rfl

/-- C9.  The claim says a destination open/write failure is reported as a
write error, but the code never checks the result of
`sf_open(outPath, SFM_WRITE, ...)` nor the count returned by
`sf_write_double`: with a NULL output handle libsndfile writes nothing and
returns 0, and `convert` prints no diagnostic at all.  Evaluated at a
44100 Hz stereo FLAC PCM24 source whose destination fails to open:
no output is produced and the message list is empty. -/
theorem write_failure_silently_ignored :
    (convert { audio := some { frames := 100, samplerate := 44100,
                               channels := 2,
                               format := SF_FORMAT_FLAC + SF_FORMAT_PCM_24 },
               rawBytes := some [], destStreamOk := false,
               destSndOk := false }).outAudio = none ∧
    (convert { audio := some { frames := 100, samplerate := 44100,
                               channels := 2,
                               format := SF_FORMAT_FLAC + SF_FORMAT_PCM_24 },
               rawBytes := some [], destStreamOk := false,
               destSndOk := false }).msgs = [] := by decide

/-- C10.  For every non-PCM16 source whose destination opens, the number of
double samples handed to `sf_write_double` equals the DECODED buffer size
`frames * channels` of the SOURCE, while the descriptor written declares 2
channels; in particular a mono source yields a declared frame count of
`frames / 2`, half the source frame count. -/
theorem written_sample_count_uses_source_layout (inp : ConvertInput)
    (info : SFInfo)
    (haudio : inp.audio = some info)
    (hsub : subformatOf info.format ≠ SF_FORMAT_PCM_16)
    (hdest : inp.destSndOk = true) :
    ∃ ow, (convert inp).outAudio = some ow ∧
      ow.samples = info.frames * info.channels ∧
      ow.info.channels = 2 ∧
      (info.channels = 1 → ow.samples / ow.info.channels = info.frames / 2) := by
  refine ⟨{ info := { frames := info.frames, samplerate := 48000,
                      channels := 2,
                      format := SF_FORMAT_WAV + SF_FORMAT_PCM_16 },
            samples := info.frames * info.channels },
          ?_, rfl, rfl, fun h1 => by simp [h1]⟩
  simp [convert, haudio, hsub, hdest]

/-- Witness for C10 at a mono FLAC PCM24 source of 10 frames: 10 samples
are written but the declared stereo layout makes that 5 frames. -/
theorem written_sample_count_uses_source_layout_witness :
    ∃ ow,
      (convert { audio := some flacMonoSrc, rawBytes := some [],
                 destStreamOk := true,
                 destSndOk := true }).outAudio = some ow ∧
      ow.samples = flacMonoSrc.frames * flacMonoSrc.channels ∧
      ow.info.channels = 2 ∧
      (flacMonoSrc.channels = 1 →
        ow.samples / ow.info.channels = flacMonoSrc.frames / 2) :=
  written_sample_count_uses_source_layout
    { audio := some flacMonoSrc, rawBytes := some [],
      destStreamOk := true, destSndOk := true }
    flacMonoSrc rfl (by decide) rfl

/-! ## Claims about the batch walker -/

lemma getFilePaths_eq (entries : List FSEntry) :
    getFilePaths entries =
      (entries.filter
        (fun e => e.isRegularFile && hasAllowedExtension e.path)).map
        (fun e => e.path) := by
  induction entries with
  | nil => rfl
  | cons e rest ih =>
    by_cases h : (e.isRegularFile && hasAllowedExtension e.path) = true <;>
      simp [getFilePaths, List.filter_cons, h, ih]

lemma hasAllowedExtension_iff (p : List Char) :
    hasAllowedExtension p = true ↔
      extOf (filenameOf p) ∈ allowedExtensions := by
  simp [hasAllowedExtension, List.any_eq_true]

/-- C6.  A filesystem entry survives the Batch Walker filter if and only if
it is a regular file whose extension is, under exact case-sensitive list
equality, one of `.wav`, `.flac`, `.ogg`, `.mp3`; in particular `notes.txt`
and `song.MP3` never reach the conversion engine. -/
theorem batch_filter_membership :
    (∀ (entries : List FSEntry) (p : List Char),
      p ∈ getFilePaths entries ↔
        ∃ e, e ∈ entries ∧ e.path = p ∧ e.isRegularFile = true ∧
          extOf (filenameOf p) ∈ allowedExtensions) ∧
    hasAllowedExtension ("notes.txt".data) = false ∧
    hasAllowedExtension ("song.MP3".data) = false := by
  refine ⟨?_, by decide, by decide⟩
  intro entries p
  rw [getFilePaths_eq]
  simp only [List.mem_map, List.mem_filter, Bool.and_eq_true]
  constructor
  · rintro ⟨e, ⟨he, hreg, hext⟩, rfl⟩
    exact ⟨e, he, rfl, hreg, (hasAllowedExtension_iff e.path).mp hext⟩
  · rintro ⟨e, he, rfl, hreg, hext⟩
    exact ⟨e, ⟨he, hreg, (hasAllowedExtension_iff e.path).mpr hext⟩, rfl⟩

lemma reportsOpenError_convert (inp : ConvertInput) :
    reportsOpenError (convert inp) = inp.audio.isNone := by
  cases ha : inp.audio with
  | none => simp [convert, ha, reportsOpenError]
  | some info =>
    by_cases h : subformatOf info.format = SF_FORMAT_PCM_16
    · cases hr : inp.rawBytes <;> cases hs : inp.destStreamOk <;>
        simp [convert, ha, h, hr, hs, copyFile, reportsOpenError]
    · simp [convert, ha, h, reportsOpenError]

lemma countP_bnot (p : ConvertResult → Bool) (l : List ConvertResult) :
    l.countP (fun a => !(p a)) = l.length - l.countP p := by
  induction l with
  | nil => rfl
  | cons x xs ih =>
    have hle := List.countP_le_length (p := p) (l := xs)
    cases h : p x with
    | false => simp [List.countP_cons, h, ih]; omega
    | true => simp [List.countP_cons, h, ih]

/-- C7.  The batch loop produces one conversion attempt per eligible file,
in enumeration order, and a failing attempt never suppresses the others:
when exactly one source among the eligible files fails to open, exactly one
outcome reports the open error and the other N−1 do not. -/
theorem batch_attempts_all_files_one_failure_isolated
    (entries : List FSEntry) (env : List Char → ConvertInput)
    (h1 : (getFilePaths entries).countP
      (fun fp => (env fp).audio.isNone) = 1) :
    (processDirectory entries env).length = (getFilePaths entries).length ∧
    (∀ i (h : i < (getFilePaths entries).length),
      (processDirectory entries env)[i]? =
        some (convert (env ((getFilePaths entries).get ⟨i, h⟩)))) ∧
    (processDirectory entries env).countP reportsOpenError = 1 ∧
    (processDirectory entries env).countP (fun r => !(reportsOpenError r)) =
      (getFilePaths entries).length - 1 := by
  have hmap : (processDirectory entries env).countP reportsOpenError = 1 := by
    unfold processDirectory
    rw [List.countP_map]
    have hfun : (reportsOpenError ∘ fun filePath => convert (env filePath)) =
        fun fp => (env fp).audio.isNone := by
      funext fp
      exact reportsOpenError_convert (env fp)
    rw [hfun, h1]
  refine ⟨by simp [processDirectory], ?_, hmap, ?_⟩
  · intro i h
    simp [processDirectory, List.getElem?_map, List.getElem?_eq_getElem h]
  · rw [countP_bnot, hmap]
    simp [processDirectory]

/-- Witness for C7: of the three eligible files in [sampleEntries] exactly
one attempt reports the open failure and the other two do not, and three
attempts are made. -/
theorem batch_attempts_all_files_one_failure_isolated_witness :
    (processDirectory sampleEntries sampleEnv).length =
      (getFilePaths sampleEntries).length ∧
    (processDirectory sampleEntries sampleEnv).countP reportsOpenError = 1 ∧
    (processDirectory sampleEntries sampleEnv).countP
        (fun r => !(reportsOpenError r)) =
      (getFilePaths sampleEntries).length - 1 :=
  ⟨(batch_attempts_all_files_one_failure_isolated sampleEntries sampleEnv
      (by decide)).1,
   (batch_attempts_all_files_one_failure_isolated sampleEntries sampleEnv
      (by decide)).2.2.1,
   (batch_attempts_all_files_one_failure_isolated sampleEntries sampleEnv
      (by decide)).2.2.2⟩
